import Mathlib

/-!
# Verification of the QR attendance application (src/app3.py)

A shallow embedding of the core of the Flask QR-attendance app:

* the token codec (`make_token` / `decode_token`, modelling the
  `itsdangerous.URLSafeTimedSerializer` with secret `QR_SECRET` and
  `max_age = QR_TTL_SECONDS`);
* the device fingerprint (`make_device_cid`);
* the SQLite-backed state (`settings`, `tokens`, `attendance` tables),
  modelled as lists of rows in rowid (insertion) order — a `fetchone()` on
  a query without `ORDER BY` performs a full table scan and returns the
  first row in rowid order, which we model with `List.find?`;
* the admin routes `admin_activate`, `admin_deactivate`, `admin_generate`
  and the student `submit` route (its POST decision path).

Times are natural numbers (seconds).  A `Token` value stands for the
serialized token string: the serialization is injective on
(payload, timestamp, signature), so equality of `Token` values coincides
with equality of the serialized strings.
-/

namespace QRAttendance

/-! ## Configuration (src/app3.py lines 9–15, default values) -/

def QR_SECRET : String := "qr-secret"

def TEACHER_PIN_DEFAULT : String := "0000"

def QR_TTL_SECONDS_DEFAULT : Nat := 600

/-! ## Python `str.strip()` -/

/-- Whitespace test for `str.strip()`. -/
def isPyWS (c : Char) : Bool :=
  c == ' ' || c == '\t' || c == '\n' || c == '\r'

/-- Model of Python `s.strip()`: remove leading and trailing whitespace. -/
def pyStrip (s : String) : String :=
  ⟨((s.data.dropWhile isPyWS).reverse.dropWhile isPyWS).reverse⟩

/-! ## Token codec (src/app3.py lines 142–146)

`make_token(slot)` is `serializer.dumps({"slot": slot})` and
`decode_token(token)` is `serializer.loads(token, max_age=QR_TTL_SECONDS)`.
The serializer seals the payload together with the issuance timestamp
using an HMAC keyed by `QR_SECRET`; `loads` first checks the seal
(raising `BadSignature` on mismatch) and then the age against `max_age`
(raising `SignatureExpired` when `age > max_age` or `age < 0`).

The HMAC seal is modelled by `signFn`, a concrete deterministic function
of the secret, the payload slot and the timestamp; the claims settled
here use only that the seal is a deterministic function covering both
the slot and the timestamp, never any collision property. -/

/-- Model of the HMAC seal over (secret, slot, issuedAt). -/
def signFn (secret slot : String) (issuedAt : Nat) : Nat :=
  (secret.data ++ '|' :: slot.data).foldl
    (fun h c => h * 257 + c.toNat + 1) (issuedAt + 7)

/-- A serialized token: payload slot, embedded timestamp, seal. -/
structure Token where
  slot : String
  issuedAt : Nat
  sig : Nat
deriving DecidableEq, Repr

/-- Outcomes of `serializer.loads`: `BadSignature` on seal mismatch,
`SignatureExpired` on TTL violation (`SignatureExpired` is raised after
the seal check succeeds). -/
inductive DecodeError where
  | signatureExpired
  | badSignature
deriving DecidableEq, Repr

/-- Model of `make_token(slot)` (src/app3.py lines 142–143), at current time `now`. -/
def make_token (now : Nat) (slot : String) : Token :=
  { slot := slot, issuedAt := now, sig := signFn QR_SECRET slot now }

/-- Model of `decode_token(token)` (src/app3.py lines 145–146), at current time `now`
with configured TTL `max_age`: seal check first, then age check
(`age > max_age` or `age < 0` raise `SignatureExpired`). -/
def decode_token (max_age now : Nat) (tok : Token) : Except DecodeError String :=
  if tok.sig = signFn QR_SECRET tok.slot tok.issuedAt then
    if now < tok.issuedAt then .error .signatureExpired
    else if now - tok.issuedAt > max_age then .error .signatureExpired
    else .ok tok.slot
  else .error .badSignature

/-! ## Device fingerprint (src/app3.py lines 137–140) -/

/-- Model of `make_device_cid`: the sha256 hex digest of `"{ip}|{ua}"`.
The digest is modelled by its preimage string: the claims use only that
the fingerprint is a deterministic function of `(ip, ua)`, equal exactly
when the inputs are equal (sha256 collisions are out of scope). -/
def make_device_cid (ip ua : String) : String :=
  ⟨ip.data ++ '|' :: ua.data⟩

/-! ## Database state (src/app3.py lines 23–134)

Each table is a list of rows in rowid (insertion) order. -/

/-- A row of the `attendance` table. -/
structure AttendanceRecord where
  student_name : String
  roll : String
  slot : String
  timestamp : Nat
  device_cid : String
  ip : String
  user_agent : String
deriving DecidableEq, Repr

/-- The database: `settings` (key/value), `tokens` (token, slot,
created_at) and `attendance` rows, each in rowid order. -/
structure St where
  settings : List (String × String)
  tokens : List (Token × String × Nat)
  attendance : List AttendanceRecord
deriving DecidableEq, Repr

/-- Model of `get_setting(key)` (lines 54–60): `fetchone` on
`SELECT value FROM settings WHERE key=?`. -/
def get_setting (st : St) (key : String) : Option String :=
  (st.settings.find? (fun kv => kv.1 == key)).map (fun kv => kv.2)

/-- Model of `set_setting(key, value)` (lines 62–67): upsert
(`ON CONFLICT(key) DO UPDATE` keeps the existing row in place). -/
def set_setting (st : St) (key value : String) : St :=
  if st.settings.any (fun kv => kv.1 == key) then
    { st with settings :=
        st.settings.map (fun kv => if kv.1 == key then (key, value) else kv) }
  else
    { st with settings := st.settings ++ [(key, value)] }

/-- Model of `clear_setting(key)` (lines 69–74): `DELETE FROM settings WHERE key=?`. -/
def clear_setting (st : St) (key : String) : St :=
  { st with settings := st.settings.filter (fun kv => !(kv.1 == key)) }

/-- Model of `store_token(token, slot)` (lines 76–81):
`INSERT OR REPLACE INTO tokens (token,slot,created_at)` — the primary key
of `tokens` is the TOKEN column, so a conflicting row (same token string)
is deleted and the new row is inserted with a fresh rowid (at the end);
a row holding a DIFFERENT token for the same slot is left in place. -/
def store_token (st : St) (tok : Token) (slot : String) (now : Nat) : St :=
  { st with tokens := st.tokens.filter (fun r => !(r.1 == tok)) ++ [(tok, slot, now)] }

/-- Model of `get_token_for_slot(slot)` (lines 83–89): `fetchone` on
`SELECT token, created_at FROM tokens WHERE slot=?` — no `ORDER BY`, no
index on `slot`, so SQLite scans in rowid order and the FIRST stored row
for the slot is returned. -/
def get_token_for_slot (st : St) (slot : String) : Option (Token × Nat) :=
  (st.tokens.find? (fun r => r.2.1 == slot)).map (fun r => (r.1, r.2.2))

/-- Model of `delete_token(token)` (lines 91–96). Present in the source but never
called by any route. -/
def delete_token (st : St) (tok : Token) : St :=
  { st with tokens := st.tokens.filter (fun r => !(r.1 == tok)) }

/-- Model of `insert_record(...)` (lines 98–104): append a row to `attendance`
with the current timestamp. -/
def insert_record (st : St) (name roll slot : String) (now : Nat)
    (device_cid ip ua : String) : St :=
  { st with attendance := st.attendance ++
      [{ student_name := name, roll := roll, slot := slot, timestamp := now,
         device_cid := device_cid, ip := ip, user_agent := ua }] }

/-- Model of `query_records(slot=slot)` (lines 106–124) restricted to the rows:
`SELECT ... FROM attendance WHERE slot=?`.  The route `submit` only tests
membership/emptiness of the result, so the `ORDER BY timestamp DESC` is
irrelevant and the rows are kept in table order. -/
def query_records_slot (st : St) (slot : String) : List AttendanceRecord :=
  st.attendance.filter (fun r => r.slot == slot)

/-! ## Routes (src/app3.py lines 300–356) -/

/-- Model of route `/admin/activate` (lines 300–307): set `active_slot` when the
stripped form value is nonempty (admin session assumed). -/
def admin_activate (st : St) (slot : String) : St :=
  if pyStrip slot == "" then st else set_setting st "active_slot" (pyStrip slot)

/-- Model of route `/admin/deactivate` (lines 309–314): clear `active_slot`
(admin session assumed). -/
def admin_deactivate (st : St) : St :=
  clear_setting st "active_slot"

/-- Model of route `/admin/generate` (lines 316–325): when `active_slot` is unset (or
empty, Python falsiness), issue nothing; otherwise make a token for the
active slot and store it (admin session assumed). -/
def admin_generate (now : Nat) (st : St) : St :=
  match get_setting st "active_slot" with
  | none => st
  | some active =>
      if active == "" then st
      else store_token st (make_token now active) active now

/-- The outcomes of the `/submit` POST decision (lines 327–356):
`missingToken` (400), `tokenExpired` (400 "Token expired"),
`invalidToken` (400 "Invalid token"), `notActive`
(403 "This attendance link is not active"), `wrongPin`
(form re-rendered with "Incorrect Teacher PIN"), `duplicate`
(400 "Attendance already recorded..."), `recorded` (success message). -/
inductive SubmitResult where
  | missingToken
  | tokenExpired
  | invalidToken
  | notActive
  | wrongPin
  | duplicate
  | recorded (name roll slot : String)
deriving DecidableEq, Repr

/-- Model of route `/submit`, POST path (lines 327–356), with configured TTL `ttl` and
teacher PIN `tpin`, at current time `now`.  In order: token presence;
`decode_token` (`SignatureExpired` handled before `BadSignature`); the
binding check against `get_token_for_slot`; the teacher-PIN check on the
stripped form value; the per-slot duplicate-fingerprint check
(`df[df["device_cid"] == device_cid]` on `query_records(slot=slot)`);
finally `insert_record`.  (The GET branch, which renders the form after
the binding check, performs no state change and is not modelled.) -/
def submit (ttl : Nat) (tpin : String) (now : Nat) (tokenOpt : Option Token)
    (student_name roll teacher_pin ip ua : String) (st : St) :
    SubmitResult × St :=
  match tokenOpt with
  | none => (.missingToken, st)
  | some token =>
    match decode_token ttl now token with
    | .error .signatureExpired => (.tokenExpired, st)
    | .error .badSignature => (.invalidToken, st)
    | .ok slot =>
      match get_token_for_slot st slot with
      | none => (.notActive, st)
      | some (tokRow, _created) =>
        if tokRow ≠ token then (.notActive, st)
        else if pyStrip teacher_pin ≠ tpin then (.wrongPin, st)
        else
          let device_cid := make_device_cid ip ua
          if (query_records_slot st slot).any (fun r => r.device_cid == device_cid)
          then (.duplicate, st)
          else (.recorded (pyStrip student_name) (pyStrip roll) slot,
                insert_record st (pyStrip student_name) (pyStrip roll) slot now
                  device_cid ip ua)

/-! ## Helper lemmas -/

/-- The per-slot duplicate test in `submit` is false exactly when no
attendance row for the slot carries the fingerprint. -/
theorem dup_any_eq_false {st : St} {s cid : String}
    (h : ∀ rec ∈ st.attendance, rec.slot = s → rec.device_cid ≠ cid) :
    (query_records_slot st s).any (fun rec => rec.device_cid == cid) = false := by
  rw [List.any_eq_false]
  intro rec hrec
  rw [query_records_slot, List.mem_filter] at hrec
  simp only [beq_iff_eq] at hrec ⊢
  exact h rec hrec.1 hrec.2

/-- Success case of `submit`: a decodable token matching the slot's
stored binding, a correct PIN and no prior record from the fingerprint
yield a recorded submission appended to the attendance table. -/
theorem submit_recorded_of {ttl : Nat} {tpin : String} {now : Nat} {tok : Token}
    {n r pin ip ua s : String} {c : Nat} {st : St}
    (hdec : decode_token ttl now tok = .ok s)
    (hbind : get_token_for_slot st s = some (tok, c))
    (hpin : pyStrip pin = tpin)
    (hnodup : ∀ rec ∈ st.attendance, rec.slot = s → rec.device_cid ≠ make_device_cid ip ua) :
    submit ttl tpin now (some tok) n r pin ip ua st
      = (.recorded (pyStrip n) (pyStrip r) s,
         insert_record st (pyStrip n) (pyStrip r) s now (make_device_cid ip ua) ip ua) := by
  have hany := dup_any_eq_false hnodup
  simp [submit, hdec, hbind, hpin, hany]

/-- Duplicate case of `submit`: with a valid bound token and correct PIN,
a prior record for the same slot and fingerprint makes the submission
fail as a duplicate with the state unchanged. -/
theorem submit_duplicate_of {ttl : Nat} {tpin : String} {now : Nat} {tok : Token}
    {n r pin ip ua s : String} {c : Nat} {st : St}
    (hdec : decode_token ttl now tok = .ok s)
    (hbind : get_token_for_slot st s = some (tok, c))
    (hpin : pyStrip pin = tpin)
    (hdup : ∃ rec ∈ st.attendance, rec.slot = s ∧ rec.device_cid = make_device_cid ip ua) :
    submit ttl tpin now (some tok) n r pin ip ua st = (.duplicate, st) := by
  have hany : (query_records_slot st s).any
      (fun rec => rec.device_cid == make_device_cid ip ua) = true := by
    rw [List.any_eq_true]
    obtain ⟨rec, hmem, hs, hcid⟩ := hdup
    refine ⟨rec, ?_, ?_⟩
    · rw [query_records_slot, List.mem_filter]
      exact ⟨hmem, by simp [hs]⟩
    · simp [hcid]
  simp [submit, hdec, hbind, hpin, hany]

/-- Exhaustive case analysis of the `submit` decision path, one disjunct
per outcome, each recording the conditions that selected it. -/
theorem submit_cases (ttl : Nat) (tpin : String) (now : Nat)
    (tokenOpt : Option Token) (n r pin ip ua : String) (st : St) :
    (tokenOpt = none ∧
       submit ttl tpin now tokenOpt n r pin ip ua st = (.missingToken, st)) ∨
    (∃ tok, tokenOpt = some tok ∧
       decode_token ttl now tok = .error .signatureExpired ∧
       submit ttl tpin now tokenOpt n r pin ip ua st = (.tokenExpired, st)) ∨
    (∃ tok, tokenOpt = some tok ∧
       decode_token ttl now tok = .error .badSignature ∧
       submit ttl tpin now tokenOpt n r pin ip ua st = (.invalidToken, st)) ∨
    (∃ tok s, tokenOpt = some tok ∧ decode_token ttl now tok = .ok s ∧
       get_token_for_slot st s = none ∧
       submit ttl tpin now tokenOpt n r pin ip ua st = (.notActive, st)) ∨
    (∃ tok s tok0 c, tokenOpt = some tok ∧ decode_token ttl now tok = .ok s ∧
       get_token_for_slot st s = some (tok0, c) ∧ tok0 ≠ tok ∧
       submit ttl tpin now tokenOpt n r pin ip ua st = (.notActive, st)) ∨
    (∃ tok s c, tokenOpt = some tok ∧ decode_token ttl now tok = .ok s ∧
       get_token_for_slot st s = some (tok, c) ∧ pyStrip pin ≠ tpin ∧
       submit ttl tpin now tokenOpt n r pin ip ua st = (.wrongPin, st)) ∨
    (∃ tok s c, tokenOpt = some tok ∧ decode_token ttl now tok = .ok s ∧
       get_token_for_slot st s = some (tok, c) ∧ pyStrip pin = tpin ∧
       (query_records_slot st s).any
         (fun rec => rec.device_cid == make_device_cid ip ua) = true ∧
       submit ttl tpin now tokenOpt n r pin ip ua st = (.duplicate, st)) ∨
    (∃ tok s c, tokenOpt = some tok ∧ decode_token ttl now tok = .ok s ∧
       get_token_for_slot st s = some (tok, c) ∧ pyStrip pin = tpin ∧
       (query_records_slot st s).any
         (fun rec => rec.device_cid == make_device_cid ip ua) = false ∧
       submit ttl tpin now tokenOpt n r pin ip ua st
         = (.recorded (pyStrip n) (pyStrip r) s,
            insert_record st (pyStrip n) (pyStrip r) s now
              (make_device_cid ip ua) ip ua)) := by
  rcases tokenOpt with _ | tok
  · exact Or.inl ⟨rfl, rfl⟩
  · right
    rcases hdec : decode_token ttl now tok with e | s
    · rcases e
      · exact Or.inl ⟨tok, rfl, hdec, by simp [submit, hdec]⟩
      · exact Or.inr (Or.inl ⟨tok, rfl, hdec, by simp [submit, hdec]⟩)
    · right; right
      rcases hbind : get_token_for_slot st s with _ | ⟨tok0, c⟩
      · exact Or.inl ⟨tok, s, rfl, hdec, hbind, by simp [submit, hdec, hbind]⟩
      · right
        by_cases htk : tok0 ≠ tok
        · exact Or.inl ⟨tok, s, tok0, c, rfl, hdec, hbind, htk,
            by simp [submit, hdec, hbind, htk]⟩
        · push_neg at htk
          subst htk
          right
          by_cases hpin : pyStrip pin ≠ tpin
          · exact Or.inl ⟨tok0, s, c, rfl, hdec, hbind, hpin,
              by simp [submit, hdec, hbind, hpin]⟩
          · push_neg at hpin
            right
            rcases hany : (query_records_slot st s).any
                (fun rec => rec.device_cid == make_device_cid ip ua) with _ | _
            · exact Or.inr ⟨tok0, s, c, rfl, hdec, hbind, hpin, hany,
                submit_recorded_of hdec hbind hpin (by
                  have := List.any_eq_false.mp hany
                  intro rec hmem hs
                  have hq : rec ∈ query_records_slot st s := by
                    rw [query_records_slot, List.mem_filter]
                    exact ⟨hmem, by simp [hs]⟩
                  simpa using this rec hq)⟩
            · exact Or.inl ⟨tok0, s, c, rfl, hdec, hbind, hpin, hany,
                by simp [submit, hdec, hbind, hpin, hany]⟩

/-- On a filtered list, `find?` agrees with `find?` on the original list
when the search predicate implies the filter predicate. -/
theorem find_of_filter {α : Type} {p q : α → Bool} (l : List α)
    (h : ∀ a, p a = true → q a = true) :
    (l.filter q).find? p = l.find? p := by
  induction l with
  | nil => rfl
  | cons a t ih =>
    by_cases hq : q a = true
    · by_cases hp : p a = true
      · simp [List.filter_cons, hq, List.find?_cons, hp]
      · simp [List.filter_cons, hq, List.find?_cons, hp, ih]
    · have hp : p a = false := by
        cases hpa : p a
        · rfl
        · exact absurd (h a hpa) hq
      simp [List.filter_cons, hq, List.find?_cons, hp, ih]

/-- Clearing a settings key makes `get_setting` of that key return
nothing. -/
theorem get_setting_clear_self (st : St) (k : String) :
    get_setting (clear_setting st k) k = none := by
  have hfind : ((st.settings.filter (fun kv => !(kv.1 == k))).find?
      (fun kv => kv.1 == k)) = none := by
    rw [List.find?_eq_none]
    intro kv hkv
    rw [List.mem_filter] at hkv
    simpa using hkv.2
  simp [get_setting, clear_setting, hfind]

/-- Clearing a settings key leaves `get_setting` of every other key
unchanged. -/
theorem get_setting_clear_other (st : St) (k k' : String) (hk : k' ≠ k) :
    get_setting (clear_setting st k) k' = get_setting st k' := by
  rw [get_setting, clear_setting, get_setting]
  rw [find_of_filter st.settings]
  intro a ha
  have h1 : a.1 = k' := by simpa using ha
  simp [h1, hk]

/-! ## Invariant and concrete states used by witnesses -/

/-- Invariant: no two rows of the attendance table for the same slot
share a device fingerprint. -/
def slotCidOk (st : St) : Prop :=
  st.attendance.Pairwise (fun a b => a.slot = b.slot → a.device_cid ≠ b.device_cid)

instance decSlotCidOk (st : St) : Decidable (slotCidOk st) := by
  unfold slotCidOk
  exact List.instDecidablePairwise _

/-- A state holding one stored token for slot `classA` and no records. -/
def stW : St :=
  { settings := [], tokens := [(make_token 0 "classA", "classA", 0)], attendance := [] }

/-- An accepted record for slot `classA` from fingerprint
`make_device_cid "1.2.3.4" "UA"`. -/
def recW : AttendanceRecord :=
  { student_name := "Ann", roll := "7", slot := "classA", timestamp := 1,
    device_cid := make_device_cid "1.2.3.4" "UA", ip := "1.2.3.4", user_agent := "UA" }

/-- Like `stW` but with one accepted record already present. -/
def stDup : St :=
  { settings := [], tokens := [(make_token 0 "classA", "classA", 0)],
    attendance := [recW] }

/-- A state whose only content is an active slot `classA`. -/
def stC1 : St :=
  { settings := [("active_slot", "classA")], tokens := [], attendance := [] }

/-- A state with an active slot, an extra setting and a stored token. -/
def stSet : St :=
  { settings := [("active_slot", "classA"), ("theme", "dark")],
    tokens := [(make_token 0 "classA", "classA", 0)], attendance := [] }

/-- A state with a stored token for slot `classB` and an accepted record
for slot `classA` from the same fingerprint that will submit for
`classB`. -/
def stB : St :=
  { settings := [], tokens := [(make_token 0 "classB", "classB", 0)],
    attendance := [recW] }

/-! ## Claims -/

/-- C1: the claim states that after a first token T1 and then a second
token T2 are issued and stored for a slot, a submission presenting the
still-unexpired T1 fails the binding check with 403 ("This attendance
link is not active"), i.e. `currentTokenFor(S)` no longer equals T1.
The code violates this: `store_token` uses `INSERT OR REPLACE` keyed on
the TOKEN primary key, so storing a different token T2 for the same slot
leaves the T1 row in place, and `get_token_for_slot` (a `fetchone` with
no `ORDER BY`, scanning in rowid order) still returns T1.  Hence, with
`active_slot = "classA"`, after `admin_generate` at t=0 (issuing T1) and
again at t=1 (issuing T2 ≠ T1), the binding still equals T1, the
submission presenting T1 at t=2 is RECORDED, and it is the fresh T2 that
gets the 403. -/
theorem C1_regeneration_keeps_old_token :
    get_token_for_slot (admin_generate 1 (admin_generate 0 stC1)) "classA"
      = some (make_token 0 "classA", 0) ∧
    make_token 0 "classA" ≠ make_token 1 "classA" ∧
    (submit 600 "0000" 2 (some (make_token 0 "classA")) "Ann" "7" "0000" "1.2.3.4" "UA"
        (admin_generate 1 (admin_generate 0 stC1))).1
      = .recorded "Ann" "7" "classA" ∧
    (submit 600 "0000" 2 (some (make_token 1 "classA")) "Ann" "7" "0000" "1.2.3.4" "UA"
        (admin_generate 1 (admin_generate 0 stC1))).1
      = .notActive := by
  refine ⟨?_, by decide, ?_, ?_⟩ <;> rfl

/-- C2: for a fixed slot and device fingerprint the first valid
submission (bound token, correct PIN) is recorded and appended, and a
subsequent submission with a valid bound token and correct PIN from the
same fingerprint fails as a duplicate and appends nothing, for ANY
student name / roll supplied; moreover `submit` preserves the invariant
that no two attendance rows of a slot share a fingerprint. -/
theorem C2_first_success_then_duplicate :
    (∀ (ttl : Nat) (tpin : String) (now1 now2 : Nat) (tok1 tok2 : Token)
       (s : String) (c1 c2 : Nat) (n1 r1 p1 n2 r2 p2 ip ua : String) (st : St),
       decode_token ttl now1 tok1 = .ok s →
       get_token_for_slot st s = some (tok1, c1) →
       pyStrip p1 = tpin →
       (∀ rec ∈ st.attendance, rec.slot = s → rec.device_cid ≠ make_device_cid ip ua) →
       decode_token ttl now2 tok2 = .ok s →
       get_token_for_slot st s = some (tok2, c2) →
       pyStrip p2 = tpin →
       submit ttl tpin now1 (some tok1) n1 r1 p1 ip ua st
         = (.recorded (pyStrip n1) (pyStrip r1) s,
            insert_record st (pyStrip n1) (pyStrip r1) s now1
              (make_device_cid ip ua) ip ua) ∧
       submit ttl tpin now2 (some tok2) n2 r2 p2 ip ua
           (insert_record st (pyStrip n1) (pyStrip r1) s now1
             (make_device_cid ip ua) ip ua)
         = (.duplicate,
            insert_record st (pyStrip n1) (pyStrip r1) s now1
              (make_device_cid ip ua) ip ua)) ∧
    (∀ (ttl : Nat) (tpin : String) (now : Nat) (tokenOpt : Option Token)
       (n r pin ip ua : String) (st : St),
       slotCidOk st → slotCidOk (submit ttl tpin now tokenOpt n r pin ip ua st).2) := by
  constructor
  · intro ttl tpin now1 now2 tok1 tok2 s c1 c2 n1 r1 p1 n2 r2 p2 ip ua st
      hdec1 hbind1 hp1 hnodup hdec2 hbind2 hp2
    refine ⟨submit_recorded_of hdec1 hbind1 hp1 hnodup, ?_⟩
    have hbind2' : get_token_for_slot
        (insert_record st (pyStrip n1) (pyStrip r1) s now1
          (make_device_cid ip ua) ip ua) s = some (tok2, c2) := hbind2
    exact submit_duplicate_of hdec2 hbind2' hp2
      ⟨{ student_name := pyStrip n1, roll := pyStrip r1, slot := s, timestamp := now1,
         device_cid := make_device_cid ip ua, ip := ip, user_agent := ua },
       by simp [insert_record], rfl, rfl⟩
  · intro ttl tpin now tokenOpt n r pin ip ua st hinv
    rcases submit_cases ttl tpin now tokenOpt n r pin ip ua st with
      ⟨_, heq⟩ | ⟨tok, _, _, heq⟩ | ⟨tok, _, _, heq⟩ | ⟨tok, s, _, _, _, heq⟩ |
      ⟨tok, s, tok0, c, _, _, _, _, heq⟩ | ⟨tok, s, c, _, _, _, _, heq⟩ |
      ⟨tok, s, c, _, _, _, _, _, heq⟩ | ⟨tok, s, c, _, hdec, hbind, hpin, hany, heq⟩
    · rw [heq]; exact hinv
    · rw [heq]; exact hinv
    · rw [heq]; exact hinv
    · rw [heq]; exact hinv
    · rw [heq]; exact hinv
    · rw [heq]; exact hinv
    · rw [heq]; exact hinv
    · rw [heq]
      rw [slotCidOk] at hinv
      show List.Pairwise (fun a b => a.slot = b.slot → a.device_cid ≠ b.device_cid)
        (st.attendance ++
          [{ student_name := pyStrip n, roll := pyStrip r, slot := s, timestamp := now,
             device_cid := make_device_cid ip ua, ip := ip, user_agent := ua }])
      rw [List.pairwise_append]
      refine ⟨hinv, List.pairwise_singleton _ _, ?_⟩
      intro a ha b hb
      rw [List.mem_singleton] at hb
      subst hb
      intro hslot
      have hmem : a ∈ query_records_slot st s := by
        rw [query_records_slot, List.mem_filter]
        refine ⟨ha, ?_⟩
        simpa using hslot
      have hne := List.any_eq_false.mp hany a hmem
      simpa using hne

/-- Witness for C2 on a concrete scenario: a first submission for
`classA` is recorded, a second one from the same fingerprint with a
different name/roll is rejected as a duplicate, and the invariant holds
of the resulting state. -/
theorem C2_witness :
    (submit 600 "0000" 1 (some (make_token 0 "classA")) "Ann" "7" "0000"
        "1.2.3.4" "UA" stW
       = (.recorded (pyStrip "Ann") (pyStrip "7") "classA",
          insert_record stW (pyStrip "Ann") (pyStrip "7") "classA" 1
            (make_device_cid "1.2.3.4" "UA") "1.2.3.4" "UA")) ∧
    (submit 600 "0000" 2 (some (make_token 0 "classA")) "Bob" "9" "0000"
        "1.2.3.4" "UA"
        (insert_record stW (pyStrip "Ann") (pyStrip "7") "classA" 1
          (make_device_cid "1.2.3.4" "UA") "1.2.3.4" "UA")
       = (.duplicate,
          insert_record stW (pyStrip "Ann") (pyStrip "7") "classA" 1
            (make_device_cid "1.2.3.4" "UA") "1.2.3.4" "UA")) ∧
    slotCidOk (submit 600 "0000" 1 (some (make_token 0 "classA")) "Ann" "7" "0000"
        "1.2.3.4" "UA" stW).2 := by
  have h := C2_first_success_then_duplicate
  have h1 := h.1 600 "0000" 1 2 (make_token 0 "classA") (make_token 0 "classA")
    "classA" 0 0 "Ann" "7" "0000" "Bob" "9" "0000" "1.2.3.4" "UA" stW
    rfl rfl (by decide) (by decide) rfl rfl (by decide)
  exact ⟨h1.1, h1.2,
    h.2 600 "0000" 1 (some (make_token 0 "classA")) "Ann" "7" "0000"
      "1.2.3.4" "UA" stW (by decide)⟩

/-- C3: a token issued at time `t` with configured TTL `T` verifies
(returning its embedded slot) at every check time in the closed interval
`[t, t+T]`, and fails as expired at every check time strictly greater
than `t+T`. -/
theorem C3_ttl_window (slot : String) (t T now : Nat) :
    (t ≤ now → now ≤ t + T → decode_token T now (make_token t slot) = .ok slot) ∧
    (t + T < now → decode_token T now (make_token t slot) = .error .signatureExpired) := by
  constructor
  · intro h1 h2
    have hnl : ¬ now < t := Nat.not_lt.mpr h1
    have hng : ¬ (now - t > T) := by omega
    simp [decode_token, make_token, hnl, hng]
  · intro h
    have hnl : ¬ now < t := by omega
    have hg : now - t > T := by omega
    simp [decode_token, make_token, hnl, hg]

/-- Witness for C3, matching the spec's scenario: a token for `classA`
issued at t=0 with TTL 600 verifies at t=599 and is expired at t=601. -/
theorem C3_witness :
    decode_token 600 599 (make_token 0 "classA") = .ok "classA" ∧
    decode_token 600 601 (make_token 0 "classA") = .error .signatureExpired :=
  ⟨(C3_ttl_window "classA" 0 600 599).1 (by decide) (by decide),
   (C3_ttl_window "classA" 0 600 601).2 (by decide)⟩

/-- C4: the submit guard checks run in the fixed order token
signature/expiry, slot binding, PIN, duplicate fingerprint, and
short-circuit on the first failure.  Formally: a wrong-PIN outcome
implies the token decoded successfully AND matched the slot's stored
binding; conversely, with a decodable bound token a wrong PIN always
yields the wrong-PIN outcome (regardless of the attendance table, so
before any duplicate check); and a duplicate outcome implies the PIN
was correct. -/
theorem C4_check_order (ttl : Nat) (tpin : String) (now : Nat)
    (tokenOpt : Option Token) (n r pin ip ua : String) (st : St) :
    ((submit ttl tpin now tokenOpt n r pin ip ua st).1 = .wrongPin →
       ∃ tok s c, tokenOpt = some tok ∧ decode_token ttl now tok = .ok s ∧
         get_token_for_slot st s = some (tok, c) ∧ pyStrip pin ≠ tpin) ∧
    (∀ tok s c, tokenOpt = some tok → decode_token ttl now tok = .ok s →
       get_token_for_slot st s = some (tok, c) → pyStrip pin ≠ tpin →
       (submit ttl tpin now tokenOpt n r pin ip ua st).1 = .wrongPin) ∧
    ((submit ttl tpin now tokenOpt n r pin ip ua st).1 = .duplicate →
       ∃ tok s c, tokenOpt = some tok ∧ decode_token ttl now tok = .ok s ∧
         get_token_for_slot st s = some (tok, c) ∧ pyStrip pin = tpin) := by
  refine ⟨?_, ?_, ?_⟩
  · intro h
    rcases submit_cases ttl tpin now tokenOpt n r pin ip ua st with
      ⟨_, heq⟩ | ⟨tok, _, _, heq⟩ | ⟨tok, _, _, heq⟩ | ⟨tok, s, _, _, _, heq⟩ |
      ⟨tok, s, tok0, c, _, _, _, _, heq⟩ | ⟨tok, s, c, h1, h2, h3, h4, heq⟩ |
      ⟨tok, s, c, _, _, _, _, _, heq⟩ | ⟨tok, s, c, _, _, _, _, _, heq⟩
    · rw [heq] at h; simp at h
    · rw [heq] at h; simp at h
    · rw [heq] at h; simp at h
    · rw [heq] at h; simp at h
    · rw [heq] at h; simp at h
    · exact ⟨tok, s, c, h1, h2, h3, h4⟩
    · rw [heq] at h; simp at h
    · rw [heq] at h; simp at h
  · intro tok s c htok hdec hbind hpin
    subst htok
    simp [submit, hdec, hbind, hpin]
  · intro h
    rcases submit_cases ttl tpin now tokenOpt n r pin ip ua st with
      ⟨_, heq⟩ | ⟨tok, _, _, heq⟩ | ⟨tok, _, _, heq⟩ | ⟨tok, s, _, _, _, heq⟩ |
      ⟨tok, s, tok0, c, _, _, _, _, heq⟩ | ⟨tok, s, c, _, _, _, _, heq⟩ |
      ⟨tok, s, c, h1, h2, h3, h4, _, heq⟩ | ⟨tok, s, c, _, _, _, _, _, heq⟩
    · rw [heq] at h; simp at h
    · rw [heq] at h; simp at h
    · rw [heq] at h; simp at h
    · rw [heq] at h; simp at h
    · rw [heq] at h; simp at h
    · rw [heq] at h; simp at h
    · exact ⟨tok, s, c, h1, h2, h3, h4⟩
    · rw [heq] at h; simp at h

/-- Witness for C4: on concrete states, a wrong-PIN submission against
a live bound token produces the wrong-PIN outcome (with the implied
facts), and a duplicate outcome implies the PIN was correct. -/
theorem C4_witness :
    (∃ tok s c, (some (make_token 0 "classA") : Option Token) = some tok ∧
       decode_token 600 1 tok = .ok s ∧
       get_token_for_slot stW s = some (tok, c) ∧ pyStrip "9999" ≠ "0000") ∧
    (submit 600 "0000" 1 (some (make_token 0 "classA")) "Ann" "7" "9999"
        "1.2.3.4" "UA" stW).1 = .wrongPin ∧
    (∃ tok s c, (some (make_token 0 "classA") : Option Token) = some tok ∧
       decode_token 600 2 tok = .ok s ∧
       get_token_for_slot stDup s = some (tok, c) ∧ pyStrip "0000" = "0000") := by
  have h1 := (C4_check_order 600 "0000" 1 (some (make_token 0 "classA")) "Ann" "7"
      "9999" "1.2.3.4" "UA" stW).1 (by decide)
  have h2 := (C4_check_order 600 "0000" 1 (some (make_token 0 "classA")) "Ann" "7"
      "9999" "1.2.3.4" "UA" stW).2.1 (make_token 0 "classA") "classA" 0 rfl rfl rfl
      (by decide)
  have h3 := (C4_check_order 600 "0000" 2 (some (make_token 0 "classA")) "Bob" "9"
      "0000" "1.2.3.4" "UA" stDup).2.2 (by decide)
  exact ⟨h1, h2, h3⟩

/-- C5: a submission whose supplied PIN (stripped) differs from the
configured teacher PIN leaves the whole database state unchanged: in
particular the attendance table and the tokens table are untouched, and
every slot's stored binding (hence the presented token's validity for a
retry) is preserved. -/
theorem C5_wrong_pin_frame (ttl : Nat) (tpin : String) (now : Nat)
    (tokenOpt : Option Token) (n r pin ip ua : String) (st : St)
    (hpin : pyStrip pin ≠ tpin) :
    (submit ttl tpin now tokenOpt n r pin ip ua st).2 = st ∧
    (submit ttl tpin now tokenOpt n r pin ip ua st).2.attendance = st.attendance ∧
    (submit ttl tpin now tokenOpt n r pin ip ua st).2.tokens = st.tokens ∧
    (∀ s, get_token_for_slot (submit ttl tpin now tokenOpt n r pin ip ua st).2 s
       = get_token_for_slot st s) := by
  have h : (submit ttl tpin now tokenOpt n r pin ip ua st).2 = st := by
    rcases submit_cases ttl tpin now tokenOpt n r pin ip ua st with
      ⟨_, heq⟩ | ⟨tok, _, _, heq⟩ | ⟨tok, _, _, heq⟩ | ⟨tok, s, _, _, _, heq⟩ |
      ⟨tok, s, tok0, c, _, _, _, _, heq⟩ | ⟨tok, s, c, _, _, _, _, heq⟩ |
      ⟨tok, s, c, _, _, _, _, _, heq⟩ | ⟨tok, s, c, _, _, _, hp, _, heq⟩
    · rw [heq]
    · rw [heq]
    · rw [heq]
    · rw [heq]
    · rw [heq]
    · rw [heq]
    · rw [heq]
    · exact absurd hp hpin
  exact ⟨h, by rw [h], by rw [h], fun s => by rw [h]⟩

/-- Witness for C5: a wrong-PIN submission against the concrete state
`stW` leaves it unchanged. -/
theorem C5_witness :
    (submit 600 "0000" 1 (some (make_token 0 "classA")) "Ann" "7" "9999"
        "1.2.3.4" "UA" stW).2 = stW ∧
    (submit 600 "0000" 1 (some (make_token 0 "classA")) "Ann" "7" "9999"
        "1.2.3.4" "UA" stW).2.attendance = stW.attendance ∧
    (submit 600 "0000" 1 (some (make_token 0 "classA")) "Ann" "7" "9999"
        "1.2.3.4" "UA" stW).2.tokens = stW.tokens ∧
    (∀ s, get_token_for_slot (submit 600 "0000" 1 (some (make_token 0 "classA"))
        "Ann" "7" "9999" "1.2.3.4" "UA" stW).2 s = get_token_for_slot stW s) :=
  C5_wrong_pin_frame 600 "0000" 1 (some (make_token 0 "classA")) "Ann" "7" "9999"
    "1.2.3.4" "UA" stW (by decide)

/-- C6: issuance followed by verification round-trips the slot exactly:
decoding a token produced by `make_token` within its TTL returns the
payload embedding exactly the issued slot string. -/
theorem C6_roundtrip (slot : String) (t ttl now : Nat)
    (h1 : t ≤ now) (h2 : now ≤ t + ttl) :
    decode_token ttl now (make_token t slot) = .ok slot := by
  have hnl : ¬ now < t := Nat.not_lt.mpr h1
  have hng : ¬ (now - t > ttl) := by omega
  simp [decode_token, make_token, hnl, hng]

/-- Witness for C6 at a concrete slot and time. -/
theorem C6_witness : decode_token 600 0 (make_token 0 "slot-1") = .ok "slot-1" :=
  C6_roundtrip "slot-1" 0 600 0 (by decide) (by decide)

/-- C7: when the `active_slot` setting is absent the generate operation
issues no token: the whole state, in particular the tokens table, is
unchanged. -/
theorem C7_no_active_slot_no_issue (now : Nat) (st : St)
    (h : get_setting st "active_slot" = none) :
    admin_generate now st = st ∧ (admin_generate now st).tokens = st.tokens := by
  have heq : admin_generate now st = st := by
    rw [admin_generate, h]
  exact ⟨heq, by rw [heq]⟩

/-- Witness for C7: generating with no active slot on the concrete
state `stW` changes nothing. -/
theorem C7_witness :
    admin_generate 5 stW = stW ∧ (admin_generate 5 stW).tokens = stW.tokens :=
  C7_no_active_slot_no_issue 5 stW rfl

/-- C9: deactivation clears only the `active_slot` setting: the tokens
and attendance tables are unchanged, every other setting is unchanged,
and a previously stored token for a slot is still accepted by the
submission guard afterwards — the binding lookup reads the per-slot
tokens table, never the active-slot setting, so a student submission
can succeed while no slot is active. -/
theorem C9_deactivate_frame (st : St) :
    (admin_deactivate st).tokens = st.tokens ∧
    (admin_deactivate st).attendance = st.attendance ∧
    get_setting (admin_deactivate st) "active_slot" = none ∧
    (∀ k, k ≠ "active_slot" → get_setting (admin_deactivate st) k = get_setting st k) ∧
    (∀ (ttl : Nat) (tpin : String) (now : Nat) (tok : Token) (s : String) (c : Nat)
       (n r pin ip ua : String),
       decode_token ttl now tok = .ok s →
       get_token_for_slot st s = some (tok, c) →
       pyStrip pin = tpin →
       (∀ rec ∈ st.attendance, rec.slot = s → rec.device_cid ≠ make_device_cid ip ua) →
       (submit ttl tpin now (some tok) n r pin ip ua (admin_deactivate st)).1
         = .recorded (pyStrip n) (pyStrip r) s) := by
  refine ⟨rfl, rfl, get_setting_clear_self st "active_slot",
    fun k hk => get_setting_clear_other st "active_slot" k hk, ?_⟩
  intro ttl tpin now tok s c n r pin ip ua hdec hbind hpin hnodup
  have hbind' : get_token_for_slot (admin_deactivate st) s = some (tok, c) := hbind
  have hnodup' : ∀ rec ∈ (admin_deactivate st).attendance,
      rec.slot = s → rec.device_cid ≠ make_device_cid ip ua := hnodup
  rw [submit_recorded_of hdec hbind' hpin hnodup']

/-- Witness for C9 on the concrete state `stSet`: after deactivation the
tables are unchanged, the other setting survives, and the previously
stored token is still accepted. -/
theorem C9_witness :
    (admin_deactivate stSet).tokens = stSet.tokens ∧
    (admin_deactivate stSet).attendance = stSet.attendance ∧
    get_setting (admin_deactivate stSet) "active_slot" = none ∧
    get_setting (admin_deactivate stSet) "theme" = get_setting stSet "theme" ∧
    (submit 600 "0000" 1 (some (make_token 0 "classA")) "Ann" "7" "0000"
        "1.2.3.4" "UA" (admin_deactivate stSet)).1
      = .recorded (pyStrip "Ann") (pyStrip "7") "classA" := by
  have h := C9_deactivate_frame stSet
  exact ⟨h.1, h.2.1, h.2.2.1, h.2.2.2.1 "theme" (by decide),
    h.2.2.2.2 600 "0000" 1 (make_token 0 "classA") "classA" 0 "Ann" "7" "0000"
      "1.2.3.4" "UA" rfl rfl (by decide) (by decide)⟩

/-- C10: the duplicate guard is scoped per slot: a fingerprint that
already has an accepted record for slot A does not block a valid
submission (live bound token, correct PIN) for a different slot B — the
submission is recorded and appended. -/
theorem C10_duplicate_scoped_per_slot (ttl : Nat) (tpin : String) (now : Nat)
    (tok : Token) (sA sB : String) (c : Nat) (rec0 : AttendanceRecord)
    (n r pin ip ua : String) (st : St)
    (_hrec0 : rec0 ∈ st.attendance) (_hrec0slot : rec0.slot = sA)
    (_hrec0cid : rec0.device_cid = make_device_cid ip ua)
    (_hAB : sA ≠ sB)
    (hdec : decode_token ttl now tok = .ok sB)
    (hbind : get_token_for_slot st sB = some (tok, c))
    (hpin : pyStrip pin = tpin)
    (hnodupB : ∀ rec ∈ st.attendance, rec.slot = sB →
       rec.device_cid ≠ make_device_cid ip ua) :
    submit ttl tpin now (some tok) n r pin ip ua st
      = (.recorded (pyStrip n) (pyStrip r) sB,
         insert_record st (pyStrip n) (pyStrip r) sB now
           (make_device_cid ip ua) ip ua) :=
  submit_recorded_of hdec hbind hpin hnodupB

/-- Witness for C10 on the concrete state `stB`: the fingerprint already
has a record for `classA`, yet its submission for `classB` with the
live token and correct PIN is recorded. -/
theorem C10_witness :
    submit 600 "0000" 1 (some (make_token 0 "classB")) "Ann" "7" "0000"
        "1.2.3.4" "UA" stB
      = (.recorded (pyStrip "Ann") (pyStrip "7") "classB",
         insert_record stB (pyStrip "Ann") (pyStrip "7") "classB" 1
           (make_device_cid "1.2.3.4" "UA") "1.2.3.4" "UA") :=
  C10_duplicate_scoped_per_slot 600 "0000" 1 (make_token 0 "classB") "classA"
    "classB" 0 recW "Ann" "7" "0000" "1.2.3.4" "UA" stB (by decide) (by decide)
    (by decide) (by decide) rfl rfl (by decide) (by decide)

end QRAttendance
